import Mathlib

/-
  Verification of the pkll process-lifecycle manager and message-transport
  layer (src/pkll/server.py) against its natural-language specification.

  The Python module is shallowly embedded: the host platform, the filesystem,
  the HTTP endpoint and the readiness of the child process streams are
  explicit values; every function from server.py becomes a pure Lean
  function over them, returning its result together with the side effects
  it performed.
-/

namespace Pkll

/-! ## Binary resolver (server.py lines 15-75) -/

/-- The static descriptor table `BINARIES` (server.py lines 15-21): platform
tuple (as a list of strings, mirroring the Python tuple keys of length 2 or
3) to release artifact filename. -/
def BINARIES : List (List String × String) :=
  [ (["darwin", "64bit"], "pkl-macos-amd64"),
    (["darwin", "aarch64"], "pkl-macos-aarch64"),
    (["linux", "64bit"], "pkl-linux-amd64"),
    (["linux", "aarch64"], "pkl-linux-aarch64"),
    (["linux", "64bit", "alpine"], "pkl-alpine-linux-amd64") ]

def PKL_VERSION : String := "0.25.2"

def BASE_PATH : String := "https://github.com/apple/pkl/releases/download/"

/-- The owner-execute permission bit `stat.S_IXUSR` (0o100). -/
def S_IXUSR : Nat := 64

/-- The host environment consulted by `detect_system` and `is_alpine_linux`:
the lowered OS name from `platform.system().lower()`, the architecture from
`platform.architecture()`, and whether the marker file /etc/alpine-release
exists. -/
structure Host where
  os_name : String
  arch : String
  alpine_marker : Bool
deriving DecidableEq

/-- `detect_system` (server.py lines 31-34). -/
def detect_system (h : Host) : String × String := (h.os_name, h.arch)

/-- `is_alpine_linux` (server.py lines 37-38). -/
def is_alpine_linux (h : Host) : Bool := h.alpine_marker

/-- The lookup-key computation of `get_binary_path` (server.py lines 53-58),
kept exactly as written: `os_name` is first rewritten to "alpine" on alpine
hosts, then the pair key is formed, then the pair key is extended with
"alpine" when it still equals ("linux", "64bit"). -/
def get_binary_key (h : Host) : List String :=
  let os_name := (detect_system h).1
  let arch := (detect_system h).2
  let os_name1 := if os_name == "linux" && is_alpine_linux h then "alpine" else os_name
  let binary_key := [os_name1, arch]
  let binary_key1 :=
    if binary_key == ["linux", "64bit"] && is_alpine_linux h
    then binary_key ++ ["alpine"] else binary_key
  binary_key1

/-- A file on the local filesystem: permission mode bits and content bytes. -/
structure FileData where
  mode : Nat
  content : List Nat
deriving DecidableEq

/-- The local filesystem, as an association list from path to file data
(first match wins). -/
structure FS where
  files : List (String × FileData)
deriving DecidableEq

def FS.lookupFile (fs : FS) (p : String) : Option FileData :=
  fs.files.lookup p

def FS.existsFile (fs : FS) (p : String) : Bool :=
  (fs.lookupFile p).isSome

def FS.setFile (fs : FS) (p : String) (d : FileData) : FS :=
  ⟨(p, d) :: fs.files⟩

/-- Opening a path with mode "wb" and writing bytes: an existing file keeps
its permission bits and gets fresh content; a new file is created with the
default mode 0o644 (= 420). -/
def FS.writeFile (fs : FS) (p : String) (c : List Nat) : FS :=
  match fs.lookupFile p with
  | some d => fs.setFile p ⟨d.mode, c⟩
  | none => fs.setFile p ⟨420, c⟩

/-- `os.chmod`: replace the mode bits of an existing file. -/
def FS.chmodFile (fs : FS) (p : String) (m : Nat) : FS :=
  match fs.lookupFile p with
  | some d => fs.setFile p ⟨m, d.content⟩
  | none => fs

/-- The outcome of the blocking `requests.get` in `download_binary`: either
some HTTP response (any status code, with its body bytes) or a transport
level failure that raises in the client. -/
inductive HttpResult where
  | response (status : Nat) (content : List Nat)
  | networkFailure
deriving DecidableEq

/-- External side effects performed by the binary resolver. -/
inductive Effect where
  | httpGet (url : String)
  | mkdirParents (path : String)
  | fileWrite (path : String)
  | chmod (path : String) (mode : Nat)
deriving DecidableEq

/-- Result of `download_binary`: the raised exception if any, the filesystem
afterwards and the effects performed. -/
structure DLOut where
  err : Option String
  fs : FS
  effects : List Effect
deriving DecidableEq

/-- `download_binary` (server.py lines 45-49): issue the GET; a transport
failure raises out of the function, while ANY response (no status check) has
its body written to `target_fp`. -/
def download_binary (file target_fp : String) (http : HttpResult) (fs : FS) : DLOut :=
  let url := BASE_PATH ++ PKL_VERSION ++ "/" ++ file
  match http with
  | HttpResult.networkFailure => ⟨some "ConnectionError", fs, [Effect.httpGet url]⟩
  | HttpResult.response _status content =>
      ⟨none, fs.writeFile target_fp content, [Effect.httpGet url, Effect.fileWrite target_fp]⟩

/-- Result of `get_binary_path`: the returned path or the raised error. -/
inductive ResolveResult where
  | ok (path : String)
  | err (msg : String)
deriving DecidableEq

/-- Result record for `get_binary_path`. -/
structure ResolveOut where
  result : ResolveResult
  fs : FS
  effects : List Effect
deriving DecidableEq

/-- The expanded `~/.pkl/bin/<version>` parent directory. -/
def bin_parent_path : String := "~/.pkl/bin/" ++ PKL_VERSION

/-- `get_binary_path` (server.py lines 52-75): compute the lookup key, look
it up in `BINARIES` (absence raises OSError before any effect), then if the
versioned path is absent create the parent directories and download, and
finally chmod the file to its current mode with the owner-execute bit added. -/
def get_binary_path (h : Host) (http : HttpResult) (fs : FS) : ResolveOut :=
  let binary_key := get_binary_key h
  match BINARIES.lookup binary_key with
  | none => ⟨ResolveResult.err "No compatible binary found for your system.", fs, []⟩
  | some bin_file =>
    let binary_path := bin_parent_path ++ "/" ++ bin_file
    let step : Option String × FS × List Effect :=
      if fs.existsFile binary_path then (none, fs, [])
      else
        let dl := download_binary bin_file binary_path http fs
        (dl.err, dl.fs, Effect.mkdirParents bin_parent_path :: dl.effects)
    match step with
    | (some e, fs1, effs) => ⟨ResolveResult.err e, fs1, effs⟩
    | (none, fs1, effs) =>
      let current :=
        match fs1.lookupFile binary_path with
        | some d => d.mode
        | none => 0
      let newmode := current ||| S_IXUSR
      ⟨ResolveResult.ok binary_path, fs1.chmodFile binary_path newmode,
        effs ++ [Effect.chmod binary_path newmode]⟩

/-! ## Process supervisor and message transport (server.py lines 90-191) -/

/-- The `PKLServer` instance state: the optional active process handle
(`self._process`) and the request id counter (`self.next_request_id`).
The handle itself carries no data the transport claims depend on. -/
structure PKLServer where
  process : Option Unit
  next_request_id : Nat
deriving DecidableEq

/-- The state `__init__` establishes (server.py lines 91-94): no process and
the counter at 1 (the resolver call in `__init__` touches no server state). -/
def pkl_server_init : PKLServer := ⟨none, 1⟩

/-- `get_request_id` (server.py lines 96-99): return the counter, then
increment it. -/
def get_request_id (s : PKLServer) : Nat × PKLServer :=
  (s.next_request_id, { s with next_request_id := s.next_request_id + 1 })

/-- `start_process` (server.py lines 101-123): a no-op when a handle is
already active, otherwise spawn a fresh handle. The debug flag only affects
the child environment, which no claim depends on. -/
def start_process (s : PKLServer) (_debug : Bool) : PKLServer :=
  if s.process.isSome then s else { s with process := some () }

/-- `terminate` (server.py lines 188-191): on an active handle, terminate
and wait, then clear the handle; with no handle, `self._process.terminate()`
raises AttributeError and the state is unchanged. -/
def terminate (s : PKLServer) : Option String × PKLServer :=
  match s.process with
  | none => (some "AttributeError", s)
  | some _ => (none, { s with process := none })

/-- The ValueError message raised by `check_process` (without the quote
characters of the original literal). -/
def not_started_msg : String := "Start server first with start_process"

/-- `check_process` (server.py lines 125-130): with no handle either raise
(when `is_raise`) or answer false; with a handle answer true. -/
def check_process (s : PKLServer) (is_raise : Bool) : Except String Bool :=
  match s.process with
  | none => if is_raise then Except.error not_started_msg else Except.ok false
  | some _ => Except.ok true

/-- Side effects of `send_message` on the child process stdin. -/
inductive TEffect where
  | stdinWrite (bytes : List Nat)
  | stdinFlush
deriving DecidableEq

/-- Result of `send_message`: the raised exception if any, and the stdin
effects performed. -/
structure SendResult where
  err : Option String
  effects : List TEffect
deriving DecidableEq

/-- `send_message` (server.py lines 132-137): check the process (raising),
then msgpack-encode the message object (the encoder `pack` is a parameter)
and write and flush it on the child stdin. -/
def send_message {α : Type} (pack : α → List Nat) (s : PKLServer) (msg_obj : α) :
    SendResult :=
  match check_process s true with
  | Except.error e => ⟨some e, []⟩
  | Except.ok _ => ⟨none, [TEffect.stdinWrite (pack msg_obj), TEffect.stdinFlush]⟩

/-- One iteration of the polling environment of `receive_message`: which
streams `select.select` reports readable, the bytes a `read()` on each then
returns (an empty list models an EOF read), and whether `poll()` reports the
child exited at this iteration. -/
structure PollStep where
  stdout_ready : Bool
  stderr_ready : Bool
  stdout_data : List Nat
  stderr_data : List Nat
  terminated : Bool
deriving DecidableEq

/-- Diagnostic prints of `receive_message`: forwarded stderr bytes and the
plain termination notice. -/
inductive PrintItem where
  | stderrText (bytes : List Nat)
  | note (s : String)
deriving DecidableEq

/-- How a `receive_message` call ends: a normal return (`none` models the
bare `return` of the empty-break branch, `some rs` the decoded response
list), the AssertionError of the one-chunk assertion, the ValueError of
`check_process`, or still inside the loop when the environment trace ends. -/
inductive RecvOutcome (Msg : Type) where
  | ok (responses : Option (List Msg))
  | assertError
  | notStarted
  | pending
deriving DecidableEq

/-- Result record of `receive_message`: the outcome, the diagnostic prints,
how many `select` calls were made, and the final collected `outputs` list. -/
structure RecvResult (Msg : Type) where
  outcome : RecvOutcome Msg
  printed : List PrintItem
  polls : Nat
  outputs : List (List Nat)
deriving DecidableEq

/-- The code after the polling loop of `receive_message` (server.py lines
167-171): `assert len(outputs) == 1`, then feed the single chunk to the
streaming decoder `decode` (modelling `msgpack.Unpacker`). -/
def receive_finish {Msg : Type} (decode : List Nat → List Msg)
    (outputs : List (List Nat)) (printed : List PrintItem) (polls : Nat) :
    RecvResult Msg :=
  match outputs with
  | [chunk] => ⟨RecvOutcome.ok (some (decode chunk)), printed, polls, [chunk]⟩
  | _ => ⟨RecvOutcome.assertError, printed, polls, outputs⟩

/-- The polling loop of `receive_message` (server.py lines 146-165), one
recursive step per `select` call, driven by the environment trace: return
on an empty readable set when `empty_break`; append the stdout read to
`outputs` and forward the stderr read to the diagnostic prints; break once
`outputs` is non-empty; print the termination notice and break when
`poll()` reports exit; otherwise loop. -/
def receive_loop {Msg : Type} (decode : List Nat → List Msg) (empty_break : Bool)
    (outputs : List (List Nat)) (printed : List PrintItem) (polls : Nat) :
    List PollStep → RecvResult Msg
  | [] => ⟨RecvOutcome.pending, printed, polls, outputs⟩
  | step :: rest =>
    if empty_break && !step.stdout_ready && !step.stderr_ready then
      ⟨RecvOutcome.ok none, printed, polls + 1, outputs⟩
    else
      let outputs1 := if step.stdout_ready then outputs ++ [step.stdout_data] else outputs
      let printed1 :=
        if step.stderr_ready then printed ++ [PrintItem.stderrText step.stderr_data]
        else printed
      if outputs1.length > 0 then
        receive_finish decode outputs1 printed1 (polls + 1)
      else if step.terminated then
        receive_finish decode outputs1
          (printed1 ++ [PrintItem.note "Process has terminated"]) (polls + 1)
      else
        receive_loop decode empty_break outputs1 printed1 (polls + 1) rest

/-- `receive_message` (server.py lines 139-171): check the process
(raising), then run the polling loop with empty accumulators. The timeout
argument bounds each individual `select` call; the trace records what each
such call observed. -/
def receive_message {Msg : Type} (decode : List Nat → List Msg) (s : PKLServer)
    (_timeout : Option Nat) (empty_break : Bool) (trace : List PollStep) :
    RecvResult Msg :=
  match check_process s true with
  | Except.error _ => ⟨RecvOutcome.notStarted, [], 0, []⟩
  | Except.ok _ => receive_loop decode empty_break [] [] 0 trace

/-- Result record of `receive_with_retry`: the final outcome (the returned
response or the propagated exception), whether the max-retry warning was
emitted, and how many `receive_message` calls were made. -/
structure RetryResult (Msg : Type) where
  outcome : RecvOutcome Msg
  warned : Bool
  calls : Nat
deriving DecidableEq

/-- The loop of `receive_with_retry` (server.py lines 173-181):
`while response is None and retry <= max_retry`, one `receive_message` per
iteration (the trace for call number n is `traces n`), then after the loop
warn exactly when `retry == max_retry`. The fuel argument counts the
iterations the loop condition still allows; `receive_with_retry` supplies
`(max_retry + 1).toNat`, which is exact, so the fuel-zero arm is the
loop-condition-false exit. Note `receive_message` returns the (possibly
empty) response LIST, never the Python `None`, unless the empty-break
branch runs, which a default call cannot reach. -/
def retry_loop {Msg : Type} (decode : List Nat → List Msg) (s : PKLServer)
    (max_retry : Int) (traces : Nat → List PollStep) (retry : Int) :
    Nat → RetryResult Msg
  | 0 => ⟨RecvOutcome.ok none, decide (retry = max_retry), 0⟩
  | fuel + 1 =>
    if retry ≤ max_retry then
      match (receive_message decode s none false (traces retry.toNat)).outcome with
      | RecvOutcome.ok none =>
        let out := retry_loop decode s max_retry traces (retry + 1) fuel
        ⟨out.outcome, out.warned, out.calls + 1⟩
      | RecvOutcome.ok (some l) =>
        ⟨RecvOutcome.ok (some l), decide (retry + 1 = max_retry), 1⟩
      | o => ⟨o, false, 1⟩
    else ⟨RecvOutcome.ok none, decide (retry = max_retry), 0⟩

/-- `receive_with_retry` (server.py lines 173-181). -/
def receive_with_retry {Msg : Type} (decode : List Nat → List Msg) (s : PKLServer)
    (max_retry : Int) (traces : Nat → List PollStep) : RetryResult Msg :=
  retry_loop decode s max_retry traces 0 (max_retry + 1).toNat

/-- `send_and_receive` (server.py lines 183-186): send, then (only when the
send did not raise) a timeout-less, non-empty-break receive. `none` in the
second component records that the receive never ran. -/
def send_and_receive {α Msg : Type} (pack : α → List Nat)
    (decode : List Nat → List Msg) (s : PKLServer) (msg_obj : α)
    (trace : List PollStep) : SendResult × Option (RecvResult Msg) :=
  let sr := send_message pack s msg_obj
  match sr.err with
  | some _ => (sr, none)
  | none => (sr, some (receive_message decode s none false trace))

/-! ## Shared helper lemmas -/

lemma lookupFile_setFile_self (fs : FS) (p : String) (d : FileData) :
    (fs.setFile p d).lookupFile p = some d := by
  simp [FS.setFile, FS.lookupFile, List.lookup]

lemma testBit_sixtyfour (i : Nat) (hi : i ≠ 6) : Nat.testBit 64 i = false := by
  have h64 : (64 : Nat) = 2 ^ 6 := by norm_num
  rw [h64, Nat.testBit_two_pow_of_ne (Ne.symm hi)]

/-- A concrete streaming decoder used by the concrete-input theorems: it
yields no messages, as `msgpack.Unpacker` does on an empty chunk. -/
def decode0 : List Nat → List (List Nat) := fun _ => []

/-! ## Claims about the binary resolver -/

/-- Claim C2 (code bug): on a Linux 64-bit host with the alpine marker file
present, `get_binary_path` rewrites `os_name` to "alpine" before forming the
lookup key, so the key becomes ("alpine", "64bit"), the refinement to
("linux", "64bit", "alpine") on lines 57-58 is unreachable, the lookup
misses even though the table lists the alpine entry, and resolution raises
OSError with no effects instead of returning pkl-alpine-linux-amd64. -/
theorem c2_alpine_refinement_unreachable :
    get_binary_key ⟨"linux", "64bit", true⟩ = ["alpine", "64bit"] ∧
    BINARIES.lookup ["linux", "64bit", "alpine"] = some "pkl-alpine-linux-amd64" ∧
    BINARIES.lookup ["alpine", "64bit"] = none ∧
    (∀ (http : HttpResult) (fs : FS),
      get_binary_path ⟨"linux", "64bit", true⟩ http fs
        = ⟨ResolveResult.err "No compatible binary found for your system.", fs, []⟩) := by
  refine ⟨by decide, by decide, by decide, fun http fs => ?_⟩
  rfl

/-- Claim C4 (code bug): `download_binary` never inspects the HTTP status,
so a 404 response is written byte-for-byte to the target path and the
resolver returns the path as if the download had succeeded; only a
transport-level failure propagates and leaves the filesystem unchanged. -/
theorem c4_non_2xx_installed :
    (download_binary "pkl-macos-amd64" "target" (HttpResult.response 404 [60, 104]) ⟨[]⟩).err
        = none ∧
    (download_binary "pkl-macos-amd64" "target" (HttpResult.response 404 [60, 104]) ⟨[]⟩).fs.lookupFile
        "target" = some ⟨420, [60, 104]⟩ ∧
    (get_binary_path ⟨"darwin", "64bit", false⟩ (HttpResult.response 404 [60, 104]) ⟨[]⟩).result
        = ResolveResult.ok ("~/.pkl/bin/0.25.2/pkl-macos-amd64") ∧
    (get_binary_path ⟨"darwin", "64bit", false⟩ (HttpResult.response 404 [60, 104]) ⟨[]⟩).fs.lookupFile
        "~/.pkl/bin/0.25.2/pkl-macos-amd64" = some ⟨484, [60, 104]⟩ ∧
    (get_binary_path ⟨"darwin", "64bit", false⟩ HttpResult.networkFailure ⟨[]⟩).result
        = ResolveResult.err "ConnectionError" ∧
    (get_binary_path ⟨"darwin", "64bit", false⟩ HttpResult.networkFailure ⟨[]⟩).fs = ⟨[]⟩ := by
  decide

/-- Claim C6 counterexample: the host tuple ("linux", "64bit", "alpine") is
listed in the descriptor table, yet on the corresponding host the resolver
fails instead of returning the listed filename. -/
theorem c6_counterexample :
    BINARIES.lookup ["linux", "64bit", "alpine"] = some "pkl-alpine-linux-amd64" ∧
    (get_binary_path ⟨"linux", "64bit", true⟩ (HttpResult.response 200 [1]) ⟨[]⟩).result
      = ResolveResult.err "No compatible binary found for your system." := by
  decide

/-- Claim C6 as amended: when the computed lookup key is absent from the
table, resolution fails with the OSError and performs no network request
and no filesystem write (state and effect list unchanged); whenever
resolution returns a path, its filename is exactly the table entry for the
computed key; and for a key that is listed, resolution does return that
path whenever the file already exists locally. On alpine hosts the
computed key is never the listed alpine triple (claim C2), which is the
only deviation from the original claim. -/
theorem c6_amended :
    (∀ (h : Host) (http : HttpResult) (fs : FS),
      BINARIES.lookup (get_binary_key h) = none →
      get_binary_path h http fs
        = ⟨ResolveResult.err "No compatible binary found for your system.", fs, []⟩) ∧
    (∀ (h : Host) (http : HttpResult) (fs : FS) (f p : String),
      BINARIES.lookup (get_binary_key h) = some f →
      (get_binary_path h http fs).result = ResolveResult.ok p →
      p = bin_parent_path ++ "/" ++ f) ∧
    (∀ (h : Host) (http : HttpResult) (fs : FS) (f : String),
      BINARIES.lookup (get_binary_key h) = some f →
      fs.existsFile (bin_parent_path ++ "/" ++ f) = true →
      (get_binary_path h http fs).result
        = ResolveResult.ok (bin_parent_path ++ "/" ++ f)) := by
  refine ⟨fun h http fs hl => ?_, fun h http fs f p hl hok => ?_, fun h http fs f hl hfe => ?_⟩
  · simp [get_binary_path, hl]
  · by_cases hfe : fs.existsFile (bin_parent_path ++ "/" ++ f)
    · simp [get_binary_path, hl, hfe] at hok
      exact hok.symm
    · cases http with
      | networkFailure => simp [get_binary_path, hl, hfe, download_binary] at hok
      | response st c =>
        simp [get_binary_path, hl, hfe, download_binary] at hok
        exact hok.symm
  · simp [get_binary_path, hl, hfe]

/-- Claim C6 amended witness: an unlisted host (windows) fails with no
effects; a listed host (darwin, file pre-existing) returns the path even
with the network down. -/
theorem c6_amended_witness :
    get_binary_path ⟨"windows", "64bit", false⟩ (HttpResult.response 200 []) ⟨[]⟩
        = ⟨ResolveResult.err "No compatible binary found for your system.", ⟨[]⟩, []⟩ ∧
    (get_binary_path ⟨"darwin", "64bit", false⟩ HttpResult.networkFailure
        ⟨[(bin_parent_path ++ "/" ++ "pkl-macos-amd64", ⟨420, [9]⟩)]⟩).result
        = ResolveResult.ok (bin_parent_path ++ "/" ++ "pkl-macos-amd64") :=
  ⟨c6_amended.1 ⟨"windows", "64bit", false⟩ (HttpResult.response 200 []) ⟨[]⟩ (by decide),
   c6_amended.2.2 ⟨"darwin", "64bit", false⟩ HttpResult.networkFailure
     ⟨[(bin_parent_path ++ "/" ++ "pkl-macos-amd64", ⟨420, [9]⟩)]⟩ "pkl-macos-amd64"
     (by decide) (by decide)⟩

/-- Claim C7: when the versioned binary file already exists, resolution
performs no HTTP request and no file write, returns the (same, derived)
path, and re-asserts the owner-execute bit: the resulting mode is the old
mode or-ed with S_IXUSR, so bit 6 is set and every other bit is preserved,
and the content is untouched. -/
theorem c7_resolve_idempotent (h : Host) (http : HttpResult) (fs : FS) (f : String)
    (d : FileData)
    (hl : BINARIES.lookup (get_binary_key h) = some f)
    (hd : fs.lookupFile (bin_parent_path ++ "/" ++ f) = some d) :
    (get_binary_path h http fs).result = ResolveResult.ok (bin_parent_path ++ "/" ++ f) ∧
    (∀ u, Effect.httpGet u ∉ (get_binary_path h http fs).effects) ∧
    (∀ q, Effect.fileWrite q ∉ (get_binary_path h http fs).effects) ∧
    (get_binary_path h http fs).fs.lookupFile (bin_parent_path ++ "/" ++ f)
      = some ⟨d.mode ||| S_IXUSR, d.content⟩ ∧
    (d.mode ||| S_IXUSR).testBit 6 = true ∧
    (∀ i, i ≠ 6 → (d.mode ||| S_IXUSR).testBit i = d.mode.testBit i) := by
  have hfe : fs.existsFile (bin_parent_path ++ "/" ++ f) = true := by
    simp [FS.existsFile, hd]
  have key : get_binary_path h http fs
      = ⟨ResolveResult.ok (bin_parent_path ++ "/" ++ f),
         fs.chmodFile (bin_parent_path ++ "/" ++ f) (d.mode ||| S_IXUSR),
         [Effect.chmod (bin_parent_path ++ "/" ++ f) (d.mode ||| S_IXUSR)]⟩ := by
    simp [get_binary_path, hl, hfe, hd]
  refine ⟨by rw [key], ?_, ?_, ?_, ?_, ?_⟩
  · intro u
    rw [key]
    simp
  · intro q
    rw [key]
    simp
  · rw [key]
    simp [FS.chmodFile, hd, lookupFile_setFile_self]
  · rw [S_IXUSR, Nat.testBit_lor]
    simp only [Bool.or_eq_true]
    exact Or.inr (by decide)
  · intro i hi
    rw [S_IXUSR, Nat.testBit_lor, testBit_sixtyfour i hi, Bool.or_false]

/-- Claim C7 witness: a darwin host with the binary pre-existing at mode
0o644 and the network unreachable still resolves, re-asserts the execute
bit and preserves bit 8 (owner-write region) of the old mode. -/
theorem c7_witness :
    (get_binary_path ⟨"darwin", "64bit", false⟩ HttpResult.networkFailure
        ⟨[(bin_parent_path ++ "/" ++ "pkl-macos-amd64", ⟨420, [9]⟩)]⟩).result
      = ResolveResult.ok (bin_parent_path ++ "/" ++ "pkl-macos-amd64") ∧
    (get_binary_path ⟨"darwin", "64bit", false⟩ HttpResult.networkFailure
        ⟨[(bin_parent_path ++ "/" ++ "pkl-macos-amd64", ⟨420, [9]⟩)]⟩).fs.lookupFile
        (bin_parent_path ++ "/" ++ "pkl-macos-amd64")
      = some ⟨420 ||| S_IXUSR, [9]⟩ ∧
    ((420 : Nat) ||| S_IXUSR).testBit 6 = true ∧
    ((420 : Nat) ||| S_IXUSR).testBit 8 = (420 : Nat).testBit 8 :=
  ⟨(c7_resolve_idempotent ⟨"darwin", "64bit", false⟩ HttpResult.networkFailure
      ⟨[(bin_parent_path ++ "/" ++ "pkl-macos-amd64", ⟨420, [9]⟩)]⟩ "pkl-macos-amd64"
      ⟨420, [9]⟩ (by decide) (by decide)).1,
   (c7_resolve_idempotent ⟨"darwin", "64bit", false⟩ HttpResult.networkFailure
      ⟨[(bin_parent_path ++ "/" ++ "pkl-macos-amd64", ⟨420, [9]⟩)]⟩ "pkl-macos-amd64"
      ⟨420, [9]⟩ (by decide) (by decide)).2.2.2.1,
   (c7_resolve_idempotent ⟨"darwin", "64bit", false⟩ HttpResult.networkFailure
      ⟨[(bin_parent_path ++ "/" ++ "pkl-macos-amd64", ⟨420, [9]⟩)]⟩ "pkl-macos-amd64"
      ⟨420, [9]⟩ (by decide) (by decide)).2.2.2.2.1,
   (c7_resolve_idempotent ⟨"darwin", "64bit", false⟩ HttpResult.networkFailure
      ⟨[(bin_parent_path ++ "/" ++ "pkl-macos-amd64", ⟨420, [9]⟩)]⟩ "pkl-macos-amd64"
      ⟨420, [9]⟩ (by decide) (by decide)).2.2.2.2.2 8 (by decide)⟩

/-! ## Claims about the message transport -/

/-- Loop invariant of `receive_message`: started with an empty `outputs`
accumulator, the loop ends with at most one collected chunk, and it can end
in the AssertionError only with zero chunks and with the termination notice
printed. -/
lemma receive_loop_spec {Msg : Type} (decode : List Nat → List Msg) (eb : Bool)
    (trace : List PollStep) :
    ∀ (printed : List PrintItem) (polls : Nat),
      ((receive_loop decode eb [] printed polls trace).outputs.length ≤ 1) ∧
      ((receive_loop decode eb [] printed polls trace).outcome = RecvOutcome.assertError →
        (receive_loop decode eb [] printed polls trace).outputs = [] ∧
        PrintItem.note "Process has terminated" ∈
          (receive_loop decode eb [] printed polls trace).printed) := by
  induction trace with
  | nil =>
    intro printed polls
    constructor
    · simp [receive_loop]
    · intro hcontra
      simp [receive_loop] at hcontra
  | cons step rest ih =>
    intro printed polls
    cases hso : step.stdout_ready with
    | true =>
      cases hse : step.stderr_ready with
      | true => simp [receive_loop, receive_finish, hso, hse]
      | false => simp [receive_loop, receive_finish, hso, hse]
    | false =>
      cases hemp : eb with
      | true =>
        cases hse : step.stderr_ready with
        | false => simp [receive_loop, hso, hemp, hse]
        | true =>
          cases ht : step.terminated with
          | true => simp [receive_loop, receive_finish, hso, hemp, hse, ht]
          | false =>
            have hrec := ih (printed ++ [PrintItem.stderrText step.stderr_data]) (polls + 1)
            simpa [receive_loop, hso, hemp, hse, ht] using hrec
      | false =>
        cases hse : step.stderr_ready with
        | true =>
          cases ht : step.terminated with
          | true => simp [receive_loop, receive_finish, hso, hemp, hse, ht]
          | false =>
            have hrec := ih (printed ++ [PrintItem.stderrText step.stderr_data]) (polls + 1)
            simpa [receive_loop, hso, hemp, hse, ht] using hrec
        | false =>
          cases ht : step.terminated with
          | true => simp [receive_loop, receive_finish, hso, hemp, hse, ht]
          | false =>
            have hrec := ih printed (polls + 1)
            simpa [receive_loop, hso, hemp, hse, ht] using hrec

/-- When the first poll already reports stdout readable, the loop breaks at
once with that single chunk (possibly the empty EOF read) decoded. -/
lemma receive_loop_stdout_ready {Msg : Type} (decode : List Nat → List Msg) (eb : Bool)
    (printed : List PrintItem) (polls : Nat) (step : PollStep) (rest : List PollStep)
    (hso : step.stdout_ready = true) :
    (receive_loop decode eb [] printed polls (step :: rest)).outcome
      = RecvOutcome.ok (some (decode step.stdout_data)) := by
  cases hse : step.stderr_ready <;> simp [receive_loop, receive_finish, hso, hse]

/-- Claim C10: in every `receive_message` call, at most one stdout chunk is
ever in `outputs` when the polling loop exits, and the one-chunk assertion
can fail only in the zero-output case, in which the child termination was
detected (and printed). -/
theorem c10_at_most_one_chunk {Msg : Type} (decode : List Nat → List Msg)
    (s : PKLServer) (timeout : Option Nat) (empty_break : Bool) (trace : List PollStep) :
    ((receive_message decode s timeout empty_break trace).outputs.length ≤ 1) ∧
    ((receive_message decode s timeout empty_break trace).outcome = RecvOutcome.assertError →
      (receive_message decode s timeout empty_break trace).outputs = [] ∧
      PrintItem.note "Process has terminated" ∈
        (receive_message decode s timeout empty_break trace).printed) := by
  cases hp : s.process with
  | none => simp [receive_message, check_process, hp]
  | some u =>
    simpa [receive_message, check_process, hp] using
      receive_loop_spec decode empty_break trace [] 0

/-- Claim C10 witness, at a trace in which the child exits having produced
no output: the assertion does fail, with zero chunks and the termination
printed. -/
theorem c10_witness :
    (receive_message decode0 ⟨some (), 1⟩ (some 1) false
        [⟨false, false, [], [], true⟩]).outputs = [] ∧
    PrintItem.note "Process has terminated" ∈
      (receive_message decode0 ⟨some (), 1⟩ (some 1) false
        [⟨false, false, [], [], true⟩]).printed :=
  (c10_at_most_one_chunk decode0 ⟨some (), 1⟩ (some 1) false
    [⟨false, false, [], [], true⟩]).2 (by decide)

/-- Claim C1 counterexample: a receive call (finite timeout, no empty-break)
in which the only poll reports nothing readable and the child exited: the
termination is printed and the loop ends with nothing collected, but the
call then fails the one-chunk assertion, i.e. it raises AssertionError
instead of returning. -/
theorem c1_counterexample :
    (receive_message decode0 ⟨some (), 1⟩ (some 1) false
        [⟨false, false, [], [], true⟩]).outcome = RecvOutcome.assertError ∧
    (receive_message decode0 ⟨some (), 1⟩ (some 1) false
        [⟨false, false, [], [], true⟩]).printed
      = [PrintItem.note "Process has terminated"] ∧
    (receive_message decode0 ⟨some (), 1⟩ (some 1) false
        [⟨false, false, [], [], true⟩]).outputs = [] := by
  decide

/-- Claim C1 as amended: when the polling loop of a started server detects
the child exited before any stdout read happened, it logs the termination
and ends the loop, but the call then raises the one-chunk AssertionError
rather than returning; a receive in which the exited child's stdout instead
yields an (empty) EOF chunk on the first poll returns the decoded (empty)
batch without raising. -/
theorem c1_amended {Msg : Type} (decode : List Nat → List Msg) (s : PKLServer)
    (timeout : Option Nat) (empty_break : Bool) (trace : List PollStep)
    (hs : s.process = some ()) :
    ((receive_message decode s timeout empty_break trace).outcome = RecvOutcome.assertError →
      (receive_message decode s timeout empty_break trace).outputs = [] ∧
      PrintItem.note "Process has terminated" ∈
        (receive_message decode s timeout empty_break trace).printed) ∧
    (∀ step rest, trace = step :: rest → step.stdout_ready = true →
      (receive_message decode s timeout empty_break trace).outcome
        = RecvOutcome.ok (some (decode step.stdout_data))) := by
  have hmsg : receive_message decode s timeout empty_break trace
      = receive_loop decode empty_break [] [] 0 trace := by
    simp [receive_message, check_process, hs]
  constructor
  · rw [hmsg]
    exact (receive_loop_spec decode empty_break trace [] 0).2
  · intro step rest htr hso
    rw [hmsg, htr]
    exact receive_loop_stdout_ready decode empty_break [] 0 step rest hso

/-- Claim C1 amended witness: the EOF-chunk path returns the empty decoded
batch without raising. -/
theorem c1_amended_witness :
    (receive_message decode0 ⟨some (), 1⟩ none false
        [⟨true, false, [], [], true⟩]).outcome = RecvOutcome.ok (some []) :=
  (c1_amended decode0 ⟨some (), 1⟩ none false [⟨true, false, [], [], true⟩] rfl).2
    ⟨true, false, [], [], true⟩ [] rfl rfl

/-- Claim C8: a `receive_message` with a timeout and `empty_break` set, whose
first (timeout-bounded) poll reports neither stream readable, returns at
once with no messages: the bare return of the empty-break branch, after
exactly one select call, with nothing collected and nothing printed. -/
theorem c8_empty_break_returns {Msg : Type} (decode : List Nat → List Msg)
    (s : PKLServer) (T : Nat) (step : PollStep) (rest : List PollStep)
    (hs : s.process = some ()) (hso : step.stdout_ready = false)
    (hse : step.stderr_ready = false) :
    receive_message decode s (some T) true (step :: rest)
      = ⟨RecvOutcome.ok none, [], 1, []⟩ := by
  simp [receive_message, check_process, hs, receive_loop, hso, hse]

/-- Claim C8 witness. -/
theorem c8_witness :
    receive_message decode0 ⟨some (), 1⟩ (some 5) true [⟨false, false, [], [], false⟩]
      = ⟨RecvOutcome.ok none, [], 1, []⟩ :=
  c8_empty_break_returns decode0 ⟨some (), 1⟩ 5 ⟨false, false, [], [], false⟩ [] rfl rfl rfl

/-- Claim C9: the request id counter starts at 1; each `get_request_id`
returns the current counter and the next call returns exactly one more;
and neither `terminate` nor a subsequent `start_process` touches the
counter. -/
theorem c9_request_id_counter :
    pkl_server_init.next_request_id = 1 ∧
    (∀ s : PKLServer,
      (get_request_id s).1 = s.next_request_id ∧
      (get_request_id (get_request_id s).2).1 = (get_request_id s).1 + 1) ∧
    (∀ (s : PKLServer) (d : Bool),
      (start_process s d).next_request_id = s.next_request_id ∧
      (terminate s).2.next_request_id = s.next_request_id ∧
      (start_process (terminate s).2 d).next_request_id = s.next_request_id) := by
  refine ⟨rfl, fun s => ⟨rfl, rfl⟩, fun s d => ⟨?_, ?_, ?_⟩⟩
  · unfold start_process
    split <;> rfl
  · cases hp : s.process <;> simp [terminate, hp]
  · cases hp : s.process <;> simp [terminate, start_process, hp]

/-- Claim C5 counterexample: `receive_with_retry` with a negative retry
budget, invoked with no active process handle, returns the Python `None`
normally: no exception is raised even though the handle check never ran. -/
theorem c5_counterexample :
    receive_with_retry decode0 ⟨none, 1⟩ (-1) (fun _ => [])
      = ⟨RecvOutcome.ok none, false, 0⟩ := by
  decide

/-- Claim C5 as amended: with no active process handle, `send_message`,
`receive_message` and `send_and_receive` fail with the check-process
ValueError before performing any stream, process or network side effect,
and so does `receive_with_retry` for every non-negative `max_retry` (its
first delegated receive raises); only a negative `max_retry` skips the loop
body and returns empty without raising. -/
theorem c5_amended (s : PKLServer) (hs : s.process = none) :
    (∀ (α : Type) (pack : α → List Nat) (msg_obj : α),
      send_message pack s msg_obj = ⟨some not_started_msg, []⟩) ∧
    (∀ (Msg : Type) (decode : List Nat → List Msg) (timeout : Option Nat)
        (empty_break : Bool) (trace : List PollStep),
      receive_message decode s timeout empty_break trace
        = ⟨RecvOutcome.notStarted, [], 0, []⟩) ∧
    (∀ (α Msg : Type) (pack : α → List Nat) (decode : List Nat → List Msg)
        (msg_obj : α) (trace : List PollStep),
      send_and_receive pack decode s msg_obj trace
        = (⟨some not_started_msg, []⟩, none)) ∧
    (∀ (Msg : Type) (decode : List Nat → List Msg) (max_retry : Int)
        (traces : Nat → List PollStep), 0 ≤ max_retry →
      receive_with_retry decode s max_retry traces
        = ⟨RecvOutcome.notStarted, false, 1⟩) := by
  refine ⟨fun α pack msg_obj => ?_, fun Msg decode timeout empty_break trace => ?_,
    fun α Msg pack decode msg_obj trace => ?_, fun Msg decode max_retry traces hm => ?_⟩
  · simp [send_message, check_process, hs]
  · simp [receive_message, check_process, hs]
  · simp [send_and_receive, send_message, check_process, hs]
  · have hf : (max_retry + 1).toNat = max_retry.toNat + 1 := by omega
    rw [receive_with_retry, hf]
    simp [retry_loop, hm, receive_message, check_process, hs]

/-- Claim C5 amended witness: a not-started server with the default retry
budget fails through the delegated check, making exactly one (raising)
receive call and emitting no warning. -/
theorem c5_amended_witness :
    receive_with_retry decode0 ⟨none, 1⟩ 5 (fun _ => [])
      = ⟨RecvOutcome.notStarted, false, 1⟩ :=
  (c5_amended ⟨none, 1⟩ rfl).2.2.2 (List Nat) decode0 5 (fun _ => []) (by decide)

/-- Claim C3 (code bug): a default `receive_message` returns a list, never
the Python `None`, so the `while response is None` loop of
`receive_with_retry` performs exactly one receive no matter the budget.
With `max_retry = 3` and a child whose every receive yields the empty
message list, only one call happens and no warning is emitted even though
nothing was obtained; with `max_retry = 1` the warning fires even though
the first call did obtain a response. -/
theorem c3_retry_never_retries :
    (receive_message decode0 ⟨some (), 1⟩ none false
        [⟨true, false, [], [], true⟩]).outcome = RecvOutcome.ok (some []) ∧
    receive_with_retry decode0 ⟨some (), 1⟩ 3 (fun _ => [⟨true, false, [], [], true⟩])
      = ⟨RecvOutcome.ok (some []), false, 1⟩ ∧
    receive_with_retry decode0 ⟨some (), 1⟩ 1 (fun _ => [⟨true, false, [], [], true⟩])
      = ⟨RecvOutcome.ok (some []), true, 1⟩ := by
  decide

end Pkll
